import Mathlib

/-!
Verification development for the workflow-orchestration backend: a shallow
embedding of the data model, the state-transition services, the incident
workflow composition, the retry policy, the circuit breaker, the KB-sync
trigger route, the change-detection service and the snapshot cache, together
with theorems settling the specification claims about them.
-/

namespace DevOpsWorkflows

/-- A small JSON-like value type standing for the opaque JSON payloads
(`workflow_data`, `result_summary`, integration results) the engine carries. -/
inductive JsonVal where
  | str (s : String)
  | num (n : Int)
  | bool (b : Bool)
  | arr (xs : List JsonVal)
  | obj (fields : List (String × JsonVal))

/-- Workflow kinds, from `backend/models/workflow.py` (`WorkflowType`). -/
inductive WorkflowType where
  | INCIDENT_RESPONSE
  | POSTMORTEM_PUBLISH
  | KB_SYNC
deriving DecidableEq, Repr

/-- Workflow statuses, from `backend/models/workflow.py` (`WorkflowStatus`). -/
inductive WorkflowStatus where
  | PENDING
  | RUNNING
  | COMPLETED
  | FAILED
  | CANCELLED
deriving DecidableEq, Repr

/-- Workflow step statuses, from `backend/models/workflow_step.py`. -/
inductive StepStatus where
  | PENDING
  | RUNNING
  | COMPLETED
  | FAILED
  | SKIPPED
deriving DecidableEq, Repr

/-- The mutable fields of a `workflows` row that the workflow service touches
(`backend/models/workflow.py`); timestamps are abstracted as naturals. -/
structure WorkflowRec where
  wtype : WorkflowType
  status : WorkflowStatus
  triggered_by : Option String
  workflow_data : List (String × JsonVal)
  error_message : Option String
  created_at : Nat
  updated_at : Nat
  completed_at : Option Nat

/-- The mutable fields of a `workflow_steps` row
(`backend/models/workflow_step.py`). -/
structure StepRec where
  step_name : String
  step_order : Nat
  status : StepStatus
  retry_count : Nat
  task_id : Option String
  result_summary : Option (List (String × JsonVal))
  error_message : Option String
  started_at : Option Nat
  completed_at : Option Nat

/-- Embedding of `WorkflowService.create_workflow`
(`backend/services/workflow_service.py`): a fresh record with status PENDING. -/
def create_workflow (workflow_type : WorkflowType) (triggered_by : Option String)
    (workflow_data : List (String × JsonVal)) (now : Nat) : WorkflowRec :=
  { wtype := workflow_type
  , status := .PENDING
  , triggered_by := triggered_by
  , workflow_data := workflow_data
  , error_message := none
  , created_at := now
  , updated_at := now
  , completed_at := none }

/-- Embedding of `WorkflowService.update_workflow_status`
(`backend/services/workflow_service.py`): looks the workflow up (modelled by
the `Option` argument), then unconditionally overwrites `status` and
`updated_at`, sets `completed_at` when the new status is COMPLETED or FAILED,
and overwrites `error_message` when the given message is truthy (a non-empty
string). There is no guard on the previous status. -/
def update_workflow_status (wf : Option WorkflowRec) (status : WorkflowStatus)
    (error_message : Option String) (now : Nat) : Except String WorkflowRec :=
  match wf with
  | none => .error "Workflow not found"
  | some w =>
      let w1 : WorkflowRec := { w with status := status, updated_at := now }
      let w2 : WorkflowRec :=
        if status = .COMPLETED ∨ status = .FAILED then
          { w1 with completed_at := some now }
        else w1
      let w3 : WorkflowRec :=
        match error_message with
        | some msg => if msg = "" then w2 else { w2 with error_message := some msg }
        | none => w2
      .ok w3

/-- Embedding of `WorkflowService.update_workflow_step_status`
(`backend/services/workflow_service.py`): overwrites `status`, sets
`started_at` whenever the new status is RUNNING, sets `completed_at` on any
terminal status, and overwrites `result_summary` and `error_message` when the
given values are truthy. `retry_count` is never read or written. -/
def update_workflow_step_status (step : Option StepRec) (status : StepStatus)
    (result_summary : Option (List (String × JsonVal)))
    (error_message : Option String) (now : Nat) : Except String StepRec :=
  match step with
  | none => .error "Workflow step not found"
  | some s =>
      let s1 : StepRec := { s with status := status }
      let s2 : StepRec :=
        if status = .RUNNING then { s1 with started_at := some now } else s1
      let s3 : StepRec :=
        if status = .COMPLETED ∨ status = .FAILED ∨ status = .SKIPPED then
          { s2 with completed_at := some now }
        else s2
      let s4 : StepRec :=
        match result_summary with
        | some rs => if rs.isEmpty then s3 else { s3 with result_summary := some rs }
        | none => s3
      let s5 : StepRec :=
        match error_message with
        | some msg => if msg = "" then s4 else { s4 with error_message := some msg }
        | none => s4
      .ok s5

/-- The five handler names of the incident-response task module
(`backend/workflows/tasks/incident_tasks.py`). -/
inductive IncidentHandler where
  | create_incident_record
  | analyze_logs_async
  | search_related_runbooks
  | create_github_issue
  | send_notification
deriving DecidableEq, Repr

/-- Embedding of `create_incident_workflow`
(`backend/workflows/incident_response.py`): the chain is built from step 1,
an optional step 2 (present only when `log_file_path` is truthy, that is, a
non-empty string), and step 3; the `create_github_issue` and
`send_notification` entries are commented out in the source, and `None`
placeholders are filtered out at the end. Only the handler identity of each
chain node is modelled; signature arguments are kept for fidelity. -/
def create_incident_workflow (title description severity : String)
    (log_file_path : Option String) : List IncidentHandler :=
  let _ := title
  let _ := description
  let _ := severity
  let tasks : List (Option IncidentHandler) :=
    [ some .create_incident_record
    , (match log_file_path with
       | some p => if p = "" then none else some .analyze_logs_async
       | none => none)
    , some .search_related_runbooks ]
  tasks.filterMap id

/-- Circuit breaker states, from `backend/integrations/github_client.py`
(`CircuitState`). -/
inductive CircuitState where
  | CLOSED
  | OPEN
  | HALF_OPEN
deriving DecidableEq, Repr

/-- The state of a `CircuitBreaker` instance from
`backend/integrations/github_client.py`: configuration plus the mutable
counters. Wall-clock time is abstracted as a natural number. -/
structure CircuitBreaker where
  failure_threshold : Nat
  recovery_timeout : Nat
  success_threshold : Nat
  failure_count : Nat
  success_count : Nat
  last_failure_time : Option Nat
  state : CircuitState
deriving DecidableEq, Repr

/-- Embedding of `CircuitBreaker.__init__`: fresh counters, state CLOSED. -/
def CircuitBreaker.init (ft rt st : Nat) : CircuitBreaker :=
  { failure_threshold := ft
  , recovery_timeout := rt
  , success_threshold := st
  , failure_count := 0
  , success_count := 0
  , last_failure_time := none
  , state := .CLOSED }

/-- Embedding of `CircuitBreaker._should_attempt_reset`: true when a last
failure time exists and at least `recovery_timeout` has elapsed since it. -/
def CircuitBreaker.shouldAttemptReset (b : CircuitBreaker) (now : Nat) : Bool :=
  match b.last_failure_time with
  | none => false
  | some t => b.recovery_timeout ≤ now - t

/-- Embedding of `CircuitBreaker._on_success`: resets `failure_count`; in
HALF_OPEN increments `success_count` and closes the circuit once it reaches
`success_threshold`. -/
def CircuitBreaker.onSuccess (b : CircuitBreaker) : CircuitBreaker :=
  let b1 : CircuitBreaker := { b with failure_count := 0 }
  if b1.state = .HALF_OPEN then
    let b2 : CircuitBreaker := { b1 with success_count := b1.success_count + 1 }
    if b2.success_threshold ≤ b2.success_count then
      { b2 with state := .CLOSED, success_count := 0 }
    else b2
  else b1

/-- Embedding of `CircuitBreaker._on_failure`: increments `failure_count`,
records the failure time, resets `success_count`, and opens the circuit once
`failure_count` reaches `failure_threshold`. -/
def CircuitBreaker.onFailure (b : CircuitBreaker) (now : Nat) : CircuitBreaker :=
  let b1 : CircuitBreaker :=
    { b with failure_count := b.failure_count + 1
           , last_failure_time := some now
           , success_count := 0 }
  if b1.failure_threshold ≤ b1.failure_count then { b1 with state := .OPEN } else b1

/-- Observable outcome of one `CircuitBreaker.call`: the wrapped operation ran
and succeeded, ran and raised, or was rejected because the circuit was open. -/
inductive CallOutcome where
  | succeeded
  | failed
  | rejected
deriving DecidableEq, Repr

/-- Embedding of `CircuitBreaker.call`: the wrapped operation is abstracted to
its outcome `ok`. In OPEN, either move to HALF_OPEN (when the recovery timeout
has elapsed) and run the call, or reject without invoking the operation. -/
def CircuitBreaker.call (b : CircuitBreaker) (now : Nat) (ok : Bool) :
    CallOutcome × CircuitBreaker :=
  if b.state = .OPEN then
    if b.shouldAttemptReset now then
      let b2 : CircuitBreaker := { b with state := .HALF_OPEN }
      if ok then (.succeeded, b2.onSuccess) else (.failed, b2.onFailure now)
    else (.rejected, b)
  else
    if ok then (.succeeded, b.onSuccess) else (.failed, b.onFailure now)

/-- Delay computation inside the retry loop of
`exponential_backoff_with_jitter` (`backend/utils/retry.py`): the exponential
backoff capped at `max_delay`, then, when jitter is on, a uniform sample from
the interval between half and one-and-a-half times the capped delay. The
uniform draw is modelled as `lo + u * (hi - lo)` with the sample position
`u` taken from `[0, 1]`; delays are modelled as rationals. -/
def backoffDelay (base_delay max_delay : ℚ) (retry_count : Nat) (jitter : Bool)
    (u : ℚ) : ℚ :=
  let d := min (base_delay * 2 ^ (retry_count - 1)) max_delay
  if jitter then (1/2) * d + u * ((3/2) * d - (1/2) * d) else d

/-- Observable effects of one run of `exponential_backoff_with_jitter`: an
invocation of the wrapped function for a given attempt counter, the optional
`on_retry` callback, and a call to `time.sleep` for a given delay. -/
inductive RetryEff where
  | invoke (retry_count : Nat)
  | retryCb (retry_count : Nat) (delay : ℚ)
  | sleep (delay : ℚ)
deriving DecidableEq, Repr

/-- Embedding of the main retry loop of
`exponential_backoff_with_jitter` (`backend/utils/retry.py`). The wrapped
function is abstracted by `outcome` (true when the attempt with the given
counter value returns, false when it raises a retryable exception), jitter
sample positions by `u`, and the presence of an `on_retry` callback by `cb`.
Returns the trace of effects and whether the run ended in success; `gas`
bounds the iteration count and is instantiated with `max_retries + 1`. -/
def backoffLoop (outcome : Nat → Bool) (max_retries : Nat)
    (base_delay max_delay : ℚ) (jitter : Bool) (u : Nat → ℚ) (cb : Bool) :
    Nat → Nat → List RetryEff × Bool
  | _, 0 => ([], false)
  | retry_count, gas + 1 =>
    if retry_count ≤ max_retries then
      if outcome retry_count then ([.invoke retry_count], true)
      else
        let rc := retry_count + 1
        if max_retries < rc then ([.invoke retry_count], false)
        else
          let d := backoffDelay base_delay max_delay rc jitter (u rc)
          let rest := backoffLoop outcome max_retries base_delay max_delay jitter u cb rc gas
          (.invoke retry_count ::
             ((if cb then [.retryCb rc d] else []) ++ .sleep d :: rest.1),
           rest.2)
    else ([], false)

/-- Embedding of `exponential_backoff_with_jitter` at the trace level: the
loop starts with `retry_count = 0` and performs at most `max_retries + 1`
attempts. -/
def exponential_backoff_with_jitter (outcome : Nat → Bool) (max_retries : Nat)
    (base_delay max_delay : ℚ) (jitter : Bool) (u : Nat → ℚ) (cb : Bool) :
    List RetryEff × Bool :=
  backoffLoop outcome max_retries base_delay max_delay jitter u cb 0 (max_retries + 1)

/-- Errors of the GitHub integration (`backend/integrations/github_client.py`): the circuit-open or API failure (`GitHubAPIError`) and the generic exception wrapper. -/
inductive GitHubError where
  | apiError (msg : String)
  | otherError (msg : String)
deriving DecidableEq, Repr

/-- Result of the HTTP POST inside `GitHubClient.create_issue`, abstracted:
either the response fields `html_url`, `number` and `state`, or a
`RequestException` message. -/
inductive IssueApiResult where
  | response (html_url : String) (number : Int) (issue_state : String)
  | requestError (msg : String)
deriving DecidableEq, Repr

/-- Embedding of `GitHubClient.create_issue`
(`backend/integrations/github_client.py`): when the integration is disabled it
returns the skipped dictionary without calling the API; when no repository is
configured it raises `GitHubAPIError`; otherwise the request runs through the
circuit breaker of the client (fresh per `GitHubClient` instance) and the response
is repackaged with `skipped = false`. The HTTP call is abstracted by `api`. -/
def GitHubClient.create_issue (enabled : Bool) (repo : Option String)
    (b : CircuitBreaker) (now : Nat) (api : IssueApiResult) :
    Except GitHubError (List (String × JsonVal)) × CircuitBreaker :=
  if enabled = false then
    (.ok [ ("skipped", .bool true)
         , ("reason", .str "GitHub integration is disabled") ], b)
  else
    match repo with
    | none => (.error (.apiError "GitHub repository not configured"), b)
    | some _ =>
        let ok := match api with
          | .response _ _ _ => true
          | .requestError _ => false
        let (outcome, b2) := b.call now ok
        match outcome, api with
        | .succeeded, .response url n st =>
            (.ok [ ("html_url", .str url)
                 , ("number", .num n)
                 , ("state", .str st)
                 , ("skipped", .bool false) ], b2)
        | .rejected, _ =>
            (.error (.apiError "Circuit breaker is OPEN - GitHub API unavailable"), b2)
        | _, _ =>
            (.error (.apiError "GitHub API request failed"), b2)

/-- Outcome of one invocation of a Celery task body: a returned value or a
raised `self.retry` carrying the causing error. -/
inductive TaskOutcome (α : Type) where
  | success (v : α)
  | retryRaised (err : String)
deriving DecidableEq, Repr

/-- Field lookup in a JSON object payload, standing for Python dictionary
subscription; `none` stands for a `KeyError`. -/
def lookupField (fields : List (String × JsonVal)) (k : String) : Option JsonVal :=
  match fields with
  | [] => none
  | (k0, v) :: rest => if k0 = k then some v else lookupField rest k

/-- Embedding of the Celery task `create_github_issue`
(`backend/workflows/tasks/incident_tasks.py`): instantiates a fresh
`GitHubClient` (so a fresh CLOSED breaker), calls `create_issue`, and builds
the result dictionary by subscripting `html_url` and `number` on the returned
data. A `KeyError` on those subscripts, like any exception, is caught and
re-raised as `self.retry`. -/
def create_github_issue_task (enabled : Bool) (repo : Option String) (now : Nat)
    (api : IssueApiResult) : TaskOutcome (List (String × JsonVal)) :=
  let client_breaker := CircuitBreaker.init 5 60 2
  match (GitHubClient.create_issue enabled repo client_breaker now api).1 with
  | .error (.apiError msg) => .retryRaised msg
  | .error (.otherError msg) => .retryRaised msg
  | .ok issue_data =>
      match lookupField issue_data "html_url", lookupField issue_data "number" with
      | some url, some n => .success [("issue_url", url), ("issue_number", n)]
      | _, _ => .retryRaised "KeyError"

/-- Python-dict insertion with overwrite, used to model
`current_state = dict-comprehension over current_files` in
`SyncService.detect_changes` (`backend/services/sync_service.py`): a repeated
key overwrites the stored value in place, a new key is appended. -/
def dictInsert (m : List (String × Int)) (k : String) (v : Int) :
    List (String × Int) :=
  if m.any (fun p => p.1 = k) then
    m.map (fun p => if p.1 = k then (k, v) else p)
  else m ++ [(k, v)]

/-- The `path ↦ mtime` dictionary built from the scanned file list in
`SyncService.detect_changes`; iteration order is insertion order, as in a
Python dict. File modification times are abstracted as integers. -/
def buildState (files : List (String × Int)) : List (String × Int) :=
  files.foldl (fun m f => dictInsert m f.1 f.2) []

/-- Key lookup in the state dictionary, standing for `path in state` and
`state[path]`. -/
def slookup : List (String × Int) → String → Option Int
  | [], _ => none
  | p :: rest, k => if p.1 = k then some p.2 else slookup rest k

/-- The result dictionary of `SyncService.detect_changes`. -/
structure ChangeResult where
  added : List String
  modified : List String
  deleted : List String
  unchanged : List String
  total_changes : Nat
deriving DecidableEq, Repr

/-- Embedding of `SyncService.detect_changes`
(`backend/services/sync_service.py`): loads the previous state (passed here
explicitly), builds the current state dictionary, classifies every current
path as added, modified or unchanged against the previous state, collects
previous paths missing from the current state as deleted, and persists the
current state as the new previous state (the second component). -/
def detect_changes (previous_state : List (String × Int))
    (current_files : List (String × Int)) :
    ChangeResult × List (String × Int) :=
  let current_state := buildState current_files
  let added := (current_state.filter
      (fun p => (slookup previous_state p.1).isNone)).map (fun p => p.1)
  let modified := (current_state.filter (fun p =>
      match slookup previous_state p.1 with
      | some m => m != p.2
      | none => false)).map (fun p => p.1)
  let unchanged := (current_state.filter (fun p =>
      match slookup previous_state p.1 with
      | some m => m == p.2
      | none => false)).map (fun p => p.1)
  let deleted := (previous_state.filter
      (fun p => (slookup current_state p.1).isNone)).map (fun p => p.1)
  ( { added := added
    , modified := modified
    , deleted := deleted
    , unchanged := unchanged
    , total_changes := added.length + modified.length + deleted.length }
  , current_state )

/-- Embedding of `WorkflowCache.get_workflow_state`
(`backend/services/workflow_cache.py`): the Redis string store is abstracted
as a partial map from keys to strings and `json.loads` as the partial `parse`
function (`none` standing for `JSONDecodeError`). A missing key, a falsy
(empty) value, or an undecodable value all yield `none`; no error escapes. -/
def get_workflow_state (parse : String → Option JsonVal)
    (store : String → Option String) (workflow_id : String) : Option JsonVal :=
  let key := "workflow:state:" ++ workflow_id
  match store key with
  | none => none
  | some state_data => if state_data = "" then none else parse state_data

/-- A keyed lock table: each key maps to the token of the holder and the lease
expiry instant, or to nothing when free. -/
def LockTable : Type := String → Option (String × Nat)

/-- Modelled from the spec: `WorkflowCache.acquire_lock` is called by the
kb-sync route (`backend/api/routes/workflows.py`) but is not defined anywhere
under the source tree; section 4.3 of the spec describes it as an atomic
set-if-absent with a lease, where a zero-wait acquire on a held lock returns
nil immediately and a lock auto-releases at lease expiry. The call
`acquire_lock(name, timeout_seconds, blocking_timeout=0)` is modelled as: if
the key holds an unexpired lease, return no token and leave the table
unchanged; otherwise store a fresh token with expiry `now + lease` and return
it. -/
def acquire_lock (locks : LockTable) (key token : String) (lease now : Nat) :
    Option String × LockTable :=
  match locks key with
  | some (_, expiry) =>
      if now < expiry then (none, locks)
      else (some token, fun k => if k = key then some (token, now + lease) else locks k)
  | none =>
      (some token, fun k => if k = key then some (token, now + lease) else locks k)

/-- The control-plane state the kb-sync trigger touches: the lock table and
the list of persisted workflow records. -/
structure ControlState where
  locks : LockTable
  workflows : List WorkflowRec

/-- HTTP response of the kb-sync trigger endpoint: 202 Accepted carrying the
created workflow record, or 409 Conflict carrying the detail message. -/
inductive KbSyncResponse where
  | accepted (workflow : WorkflowRec)
  | conflict (detail : String)

/-- The HTTP status code a `KbSyncResponse` is served with. -/
def KbSyncResponse.code : KbSyncResponse → Nat
  | .accepted _ => 202
  | .conflict _ => 409

/-- Embedding of the `trigger_kb_sync` route
(`backend/api/routes/workflows.py`): acquire the `kb_sync` lock with zero
blocking timeout and a 600-second lease; on failure respond 409 Conflict
before any workflow record is written; on success create the KB_SYNC workflow
record with status PENDING and respond 202. The Celery dispatch, the
`workflow_data` merge of the chain id and the snapshot write are elided as
they do not touch the lock table or create further records. -/
def trigger_kb_sync (st : ControlState) (runbooks_dir : String)
    (triggered_by : Option String) (token : String) (now : Nat) :
    KbSyncResponse × ControlState :=
  let acq := acquire_lock st.locks "kb_sync" token 600 now
  match acq.1 with
  | none =>
      ( .conflict "KB sync workflow is already running. Please wait for it to complete."
      , { st with locks := acq.2 } )
  | some _ =>
      let wf := create_workflow .KB_SYNC (some (triggered_by.getD "api"))
        [ ("runbooks_dir", .str runbooks_dir)
        , ("workflow_type", .str "kb_sync") ] now
      (.accepted wf, { locks := acq.2, workflows := st.workflows ++ [wf] })

/-- Claim C1 (code-bug evidence): for the incident-response trigger of the
happy-path scenario of the spec, which supplies `log_file_path`, the composed
workflow chain contains three handler nodes — `create_incident_record`,
`analyze_logs_async`, `search_related_runbooks` — not the five the claim
states: the `create_github_issue` and `send_notification` nodes are commented
out in `create_incident_workflow`, contradicting the module docstring and the
contract test asserting a five-task chain. -/
theorem incident_chain_has_three_nodes :
    create_incident_workflow "API Down" "500s on /chat" "critical"
        (some "/logs/api.log")
      = [.create_incident_record, .analyze_logs_async, .search_related_runbooks]
    ∧ (create_incident_workflow "API Down" "500s on /chat" "critical"
        (some "/logs/api.log")).length = 3 := by
  constructor <;> rfl

/-- Claim C3 (counterexample): a workflow already in the terminal status
COMPLETED is not protected from later updates — a call requesting RUNNING
succeeds and overwrites the status, so the claim that every later call is
rejected and leaves the record unchanged is false. -/
theorem update_after_terminal_succeeds_cex :
    Except.map WorkflowRec.status
      (update_workflow_status
        (some { wtype := .INCIDENT_RESPONSE
              , status := .COMPLETED
              , triggered_by := some "bob"
              , workflow_data := []
              , error_message := none
              , created_at := 0
              , updated_at := 1
              , completed_at := some 1 })
        .RUNNING none 5)
      = .ok .RUNNING := rfl

/-- Claim C3 (amended): `update_workflow_status` has no terminal guard — for
every stored workflow, whatever its current status, the call succeeds,
overwrites `status` and `updated_at` with the requested values, and sets
`completed_at` exactly when the new status is COMPLETED or FAILED. -/
theorem update_workflow_status_overwrites (w : WorkflowRec)
    (status : WorkflowStatus) (error_message : Option String) (now : Nat) :
    Except.map WorkflowRec.status
        (update_workflow_status (some w) status error_message now) = .ok status
    ∧ Except.map WorkflowRec.updated_at
        (update_workflow_status (some w) status error_message now) = .ok now
    ∧ Except.map WorkflowRec.completed_at
        (update_workflow_status (some w) status error_message now)
      = .ok (if status = .COMPLETED ∨ status = .FAILED then some now
             else w.completed_at) := by
  unfold update_workflow_status
  cases error_message with
  | none =>
      by_cases h : status = .COMPLETED ∨ status = .FAILED <;> simp [h, Except.map]
  | some msg =>
      by_cases h : status = .COMPLETED ∨ status = .FAILED <;>
        by_cases hm : msg = "" <;> simp [h, hm, Except.map]

/-- Claim C4 (counterexample): a step already RUNNING that is set to RUNNING
again (the retry self-transition) keeps `retry_count = 0` — the claim that
this transition increments the counter is false. -/
theorem step_retry_count_not_incremented_cex :
    Except.map StepRec.retry_count
      (update_workflow_step_status
        (some { step_name := "analyze_logs_async"
              , step_order := 2
              , status := .RUNNING
              , retry_count := 0
              , task_id := none
              , result_summary := none
              , error_message := none
              , started_at := some 3
              , completed_at := none })
        .RUNNING none none 7)
      = .ok 0 := rfl

/-- Claim C4 (amended): `update_workflow_step_status` never reads or writes
`retry_count` — on every transition, including RUNNING to RUNNING, the stored
counter is returned unchanged. -/
theorem update_step_status_keeps_retry_count (s : StepRec) (status : StepStatus)
    (result_summary : Option (List (String × JsonVal)))
    (error_message : Option String) (now : Nat) :
    Except.map StepRec.retry_count
        (update_workflow_step_status (some s) status result_summary
          error_message now)
      = .ok s.retry_count := by
  unfold update_workflow_step_status
  cases result_summary <;> cases error_message <;>
    simp [Except.map] <;> split_ifs <;> rfl

/-- Claim C8 (code-bug evidence): with the code-host integration disabled,
`GitHubClient.create_issue` returns the documented first-class skipped
dictionary, but the `create_github_issue` task then subscripts `html_url` on
it, raising a `KeyError` that the generic handler turns into `self.retry` —
so the step retries and ultimately fails instead of completing with the
skipped result. -/
theorem disabled_github_issue_task_retries :
    (GitHubClient.create_issue false none (CircuitBreaker.init 5 60 2) 0
        (.requestError "integration disabled, api never reached")).1
      = .ok [ ("skipped", .bool true)
            , ("reason", .str "GitHub integration is disabled") ]
    ∧ create_github_issue_task false none 0
        (.requestError "integration disabled, api never reached")
      = .retryRaised "KeyError" := by
  constructor <;> rfl

/-- Claim C10: `WorkflowCache.get_workflow_state` treats a corrupt snapshot
exactly like a cache miss — when the key is absent, or the cached string does
not decode as JSON, the function returns `none` rather than propagating an
error, so the caller falls back to the state store. -/
theorem get_workflow_state_bad_entry_is_miss (parse : String → Option JsonVal)
    (store : String → Option String) (workflow_id : String) :
    (store ("workflow:state:" ++ workflow_id) = none →
        get_workflow_state parse store workflow_id = none)
    ∧ (∀ s, store ("workflow:state:" ++ workflow_id) = some s →
        parse s = none → get_workflow_state parse store workflow_id = none) := by
  constructor
  · intro h
    simp [get_workflow_state, h]
  · intro s hs hp
    simp only [get_workflow_state, hs]
    split <;> simp [hp]

/-- Claim C10 witness: a concrete store holding an undecodable snapshot for
workflow `wf1` yields a cache miss. -/
theorem get_workflow_state_bad_entry_is_miss_witness :
    ((fun k => if k = "workflow:state:" ++ "wf1" then some "corrupt" else none)
        ("workflow:state:" ++ "wf1") = some "corrupt")
    ∧ get_workflow_state (fun _ => none)
        (fun k => if k = "workflow:state:" ++ "wf1" then some "corrupt" else none)
        "wf1" = none := by
  refine ⟨by simp, ?_⟩
  exact (get_workflow_state_bad_entry_is_miss (fun _ => none)
    (fun k => if k = "workflow:state:" ++ "wf1" then some "corrupt" else none)
    "wf1").2 "corrupt" (by simp) rfl

/-- Claim C5 (counterexample): drive the default breaker (thresholds 5/60 s/2)
to OPEN with five failures, let the recovery timeout elapse, and probe with
one success — the breaker is HALF_OPEN. The next call fails, yet the breaker
stays HALF_OPEN instead of returning to OPEN: the successful probe reset
`failure_count`, so a single failure no longer reaches `failure_threshold`. -/
theorem halfopen_failure_stays_halfopen_cex :
    (let b0 := CircuitBreaker.init 5 60 2
     let b1 := (List.range 5).foldl (fun b _ => (b.call 0 false).2) b0
     let b2 := (b1.call 60 true).2
     let b3 := (b2.call 61 false).2
     b1.state = .OPEN ∧ b2.state = .HALF_OPEN ∧ b3.state = .HALF_OPEN) := by
  decide

/-- Claim C5 (amended): in HALF_OPEN, a failed call returns the breaker to
OPEN exactly when the incremented `failure_count` reaches `failure_threshold`
(true for the first probe failure, whose count still carries the failures that
opened the circuit, but false after a successful probe reset the count); every
failure resets `success_count`, and a successful call moves the breaker to
CLOSED exactly when `success_threshold` consecutive successes have been
observed in HALF_OPEN. -/
theorem halfopen_transitions (b : CircuitBreaker) (now : Nat)
    (h : b.state = .HALF_OPEN) :
    ((b.call now false).2.state
        = if b.failure_threshold ≤ b.failure_count + 1 then .OPEN else .HALF_OPEN)
    ∧ (b.call now false).2.success_count = 0
    ∧ ((b.call now true).2.state
        = if b.success_threshold ≤ b.success_count + 1 then .CLOSED
          else .HALF_OPEN) := by
  refine ⟨?_, ?_, ?_⟩ <;>
    simp only [CircuitBreaker.call, CircuitBreaker.onFailure,
      CircuitBreaker.onSuccess, h] <;>
    split_ifs <;> simp_all

/-- Claim C5 witness: the amended transition law evaluated on a breaker in
HALF_OPEN with thresholds 5/60/2 and counters reset by a successful probe. -/
theorem halfopen_transitions_witness :
    (let b : CircuitBreaker :=
      { failure_threshold := 5, recovery_timeout := 60, success_threshold := 2
      , failure_count := 0, success_count := 1, last_failure_time := some 0
      , state := .HALF_OPEN }
     b.state = .HALF_OPEN
     ∧ (((b.call 61 false).2.state
          = if b.failure_threshold ≤ b.failure_count + 1 then .OPEN
            else .HALF_OPEN)
        ∧ (b.call 61 false).2.success_count = 0
        ∧ ((b.call 61 true).2.state
            = if b.success_threshold ≤ b.success_count + 1 then .CLOSED
              else .HALF_OPEN))) := by
  exact ⟨rfl, halfopen_transitions _ 61 rfl⟩

/-- Claim C6: with jitter disabled the computed delay for attempt `n` is
exactly the exponential backoff capped at the maximum, and with jitter
enabled the delay lies between half and one-and-a-half times that same capped
value, for every jitter sample position in the unit interval. -/
theorem backoff_delay_formula (base_delay max_delay u : ℚ) (n : Nat)
    (_hn : 1 ≤ n) (hb : 0 ≤ base_delay) (hm : 0 ≤ max_delay)
    (hu0 : 0 ≤ u) (hu1 : u ≤ 1) :
    backoffDelay base_delay max_delay n false u
      = min (base_delay * 2 ^ (n - 1)) max_delay
    ∧ (1/2) * min (base_delay * 2 ^ (n - 1)) max_delay
        ≤ backoffDelay base_delay max_delay n true u
    ∧ backoffDelay base_delay max_delay n true u
        ≤ (3/2) * min (base_delay * 2 ^ (n - 1)) max_delay := by
  have hd : (0:ℚ) ≤ min (base_delay * 2 ^ (n - 1)) max_delay :=
    le_min (mul_nonneg hb (by positivity)) hm
  have hud : u * min (base_delay * 2 ^ (n - 1)) max_delay
      ≤ min (base_delay * 2 ^ (n - 1)) max_delay :=
    mul_le_of_le_one_left hd hu1
  have hud0 : 0 ≤ u * min (base_delay * 2 ^ (n - 1)) max_delay :=
    mul_nonneg hu0 hd
  refine ⟨rfl, ?_, ?_⟩ <;> simp only [backoffDelay, if_true] <;> ring_nf <;>
    nlinarith [hud, hud0, hd]

/-- Claim C6 witness: the delay law at attempt 1 with base 1 s, cap 60 s and
jitter sample position one half. -/
theorem backoff_delay_formula_witness :
    (1 ≤ 1 ∧ (0:ℚ) ≤ 1 ∧ (0:ℚ) ≤ 60 ∧ (0:ℚ) ≤ 1/2 ∧ (1/2:ℚ) ≤ 1)
    ∧ (backoffDelay 1 60 1 false (1/2) = min ((1:ℚ) * 2 ^ (1 - 1)) 60
       ∧ (1/2) * min ((1:ℚ) * 2 ^ (1 - 1)) 60 ≤ backoffDelay 1 60 1 true (1/2)
       ∧ backoffDelay 1 60 1 true (1/2) ≤ (3/2) * min ((1:ℚ) * 2 ^ (1 - 1)) 60) :=
  ⟨⟨by norm_num, by norm_num, by norm_num, by norm_num, by norm_num⟩,
   backoff_delay_formula 1 60 (1/2) 1 (by norm_num) (by norm_num) (by norm_num)
     (by norm_num) (by norm_num)⟩

/-- Claim C7 (counterexample): a run of the retry policy in which the wrapped
function keeps failing performs `time.sleep` inside the policy itself — the
effect trace of a run with one retry contains a sleep of the computed one
second delay between the two attempts, refuting the claim that the policy
only yields the delay for external scheduling. -/
theorem retry_policy_sleeps_cex :
    exponential_backoff_with_jitter (fun _ => false) 1 1 60 false (fun _ => 0)
        false
      = ([.invoke 0, .sleep 1, .invoke 1], false)
    ∧ RetryEff.sleep 1
        ∈ (exponential_backoff_with_jitter (fun _ => false) 1 1 60 false
            (fun _ => 0) false).1 := by
  have h : exponential_backoff_with_jitter (fun _ => false) 1 1 60 false
      (fun _ => 0) false = ([.invoke 0, .sleep 1, .invoke 1], false) := by
    norm_num [exponential_backoff_with_jitter, backoffLoop, backoffDelay]
  refine ⟨h, ?_⟩
  rw [h]
  simp

/-- After a failed attempt with retry budget remaining, the effect trace of the retry loop contains a sleep of the backoff delay computed for the next
attempt; stated for the loop at any starting counter with sufficient gas. -/
theorem backoffLoop_sleep_mem (outcome : Nat → Bool) (mr : Nat)
    (base maxd : ℚ) (jitter : Bool) (u : Nat → ℚ) (cb : Bool) :
    ∀ gas rc i, rc ≤ i → i < mr → (∀ j, rc ≤ j → j ≤ i → outcome j = false) →
      mr - rc < gas →
      RetryEff.sleep (backoffDelay base maxd (i + 1) jitter (u (i + 1)))
        ∈ (backoffLoop outcome mr base maxd jitter u cb rc gas).1 := by
  intro gas
  induction gas with
  | zero =>
      intro rc i h1 h2 h3 h4
      omega
  | succ g ih =>
      intro rc i h1 h2 h3 h4
      have hrcmr : rc ≤ mr := le_of_lt (lt_of_le_of_lt h1 h2)
      have hout : outcome rc = false := h3 rc le_rfl h1
      have hnotlt : ¬ mr < rc + 1 := by omega
      simp only [backoffLoop, if_pos hrcmr, hout, Bool.false_eq_true,
        if_false, if_neg hnotlt, List.mem_cons, List.mem_append]
      rcases Nat.eq_or_lt_of_le h1 with heq | hlt
      · subst heq
        right
        right
        exact Or.inl rfl
      · right
        right
        exact Or.inr (ih (rc + 1) i hlt h2 (fun j hj1 hj2 => h3 j (by omega) hj2)
          (by omega))

/-- Claim C7 (amended): the retry policy sleeps internally — whenever attempt
`i` fails with retry budget remaining, the effect trace of the run contains a
`time.sleep` of the backoff delay computed for attempt `i + 1`; the delay is
not yielded to an external scheduler. -/
theorem retry_policy_sleeps_internally (outcome : Nat → Bool) (mr : Nat)
    (base maxd : ℚ) (jitter : Bool) (u : Nat → ℚ) (cb : Bool) (i : Nat)
    (hfail : ∀ j, j ≤ i → outcome j = false) (hi : i < mr) :
    RetryEff.sleep (backoffDelay base maxd (i + 1) jitter (u (i + 1)))
      ∈ (exponential_backoff_with_jitter outcome mr base maxd jitter u cb).1 :=
  backoffLoop_sleep_mem outcome mr base maxd jitter u cb (mr + 1) 0 i
    (Nat.zero_le i) hi (fun j _ hj => hfail j hj) (by omega)

/-- Claim C7 witness: a run with budget 2 whose first attempt fails sleeps
for the computed first-retry delay. -/
theorem retry_policy_sleeps_internally_witness :
    (∀ j, j ≤ 0 → (fun _ => false) j = false) ∧ 0 < 2
    ∧ RetryEff.sleep (backoffDelay 1 60 (0 + 1) false ((fun _ => (0:ℚ)) (0 + 1)))
        ∈ (exponential_backoff_with_jitter (fun _ => false) 2 1 60 false
            (fun _ => (0:ℚ)) false).1 :=
  ⟨fun _ _ => rfl, by norm_num,
   retry_policy_sleeps_internally (fun _ => false) 2 1 60 false (fun _ => (0:ℚ))
     false 0 (fun _ _ => rfl) (by norm_num)⟩

/-- Claim C2: the kb-sync trigger is gated by the `kb_sync` lock — when the
lock is held within its lease, the zero-wait acquire returns no token and the
endpoint responds 409 Conflict with the lock table and workflow list
untouched; when the lock is free, the acquire returns a token, the endpoint
responds 202 and exactly one new workflow record is appended, with the lock
now held by the fresh token. The lock itself is modelled from the spec since
`acquire_lock` is absent from the source tree. -/
theorem kb_sync_lock_gates_trigger (st : ControlState) (runbooks_dir : String)
    (triggered_by : Option String) (token : String) (now : Nat) :
    (∀ holder expiry, st.locks "kb_sync" = some (holder, expiry) → now < expiry →
        (trigger_kb_sync st runbooks_dir triggered_by token now).1.code = 409
        ∧ (acquire_lock st.locks "kb_sync" token 600 now).1 = none
        ∧ (trigger_kb_sync st runbooks_dir triggered_by token now).2.workflows
            = st.workflows
        ∧ (trigger_kb_sync st runbooks_dir triggered_by token now).2.locks
            = st.locks)
    ∧ (st.locks "kb_sync" = none →
        (trigger_kb_sync st runbooks_dir triggered_by token now).1.code = 202
        ∧ (acquire_lock st.locks "kb_sync" token 600 now).1 = some token
        ∧ (trigger_kb_sync st runbooks_dir triggered_by token now).2.locks
            "kb_sync" = some (token, now + 600)
        ∧ (trigger_kb_sync st runbooks_dir triggered_by token now).2.workflows
            = st.workflows
              ++ [create_workflow .KB_SYNC (some (triggered_by.getD "api"))
                    [ ("runbooks_dir", .str runbooks_dir)
                    , ("workflow_type", .str "kb_sync") ] now]) := by
  constructor
  · intro holder expiry hheld hexp
    refine ⟨?_, ?_, ?_, ?_⟩ <;>
      simp [trigger_kb_sync, acquire_lock, hheld, hexp, KbSyncResponse.code]
  · intro hfree
    refine ⟨?_, ?_, ?_, ?_⟩ <;>
      simp [trigger_kb_sync, acquire_lock, hfree, KbSyncResponse.code]

/-- Claim C2 witness: a held unexpired lock yields 409, a free lock yields
202, on concrete control states. -/
theorem kb_sync_lock_gates_trigger_witness :
    ((fun k => if k = "kb_sync" then some ("t0", 100) else none) "kb_sync"
        = some ("t0", (100:Nat))) ∧ (0:Nat) < 100
    ∧ (trigger_kb_sync
        { locks := fun k => if k = "kb_sync" then some ("t0", 100) else none
        , workflows := [] } "/runbooks" none "tok1" 0).1.code = 409
    ∧ (trigger_kb_sync { locks := fun _ => none, workflows := [] }
        "/runbooks" none "tok2" 0).1.code = 202 := by
  refine ⟨by simp, by norm_num, ?_, ?_⟩
  · exact ((kb_sync_lock_gates_trigger
      { locks := fun k => if k = "kb_sync" then some ("t0", 100) else none
      , workflows := [] } "/runbooks" none "tok1" 0).1 "t0" 100 (by simp)
      (by norm_num)).1
  · exact ((kb_sync_lock_gates_trigger
      { locks := fun _ => none, workflows := [] } "/runbooks" none "tok2" 0).2
      rfl).1

/-- Pairwise-distinct keys of a state dictionary — the invariant a Python
dict maintains and the association-list model must preserve. -/
def keysNodup (m : List (String × Int)) : Prop := (m.map Prod.fst).Nodup

/-- Inserting into a state dictionary preserves distinctness of keys. -/
theorem dictInsert_keysNodup (m : List (String × Int)) (k : String) (v : Int)
    (h : keysNodup m) : keysNodup (dictInsert m k v) := by
  unfold dictInsert
  split
  · have hfst : (m.map (fun p => if p.1 = k then (k, v) else p)).map Prod.fst
        = m.map Prod.fst := by
      rw [List.map_map]
      refine List.map_congr_left ?_
      intro p _
      by_cases hpk : p.1 = k <;> simp [hpk]
    unfold keysNodup
    rw [hfst]
    exact h
  · rename_i hnot
    have hk : k ∉ m.map Prod.fst := by
      intro hmem
      rcases List.mem_map.mp hmem with ⟨p, hp, hpk⟩
      exact hnot (List.any_eq_true.mpr ⟨p, hp, by simp [hpk]⟩)
    unfold keysNodup
    simp only [List.map_append, List.map_cons, List.map_nil]
    rw [List.nodup_append]
    refine ⟨h, List.nodup_singleton k, ?_⟩
    intro a ha hak
    rw [List.mem_singleton] at hak
    exact hk (hak ▸ ha)

/-- The dictionary built from a scanned file list has distinct keys. -/
theorem buildState_keysNodup (files : List (String × Int)) :
    keysNodup (buildState files) := by
  unfold buildState
  suffices h : ∀ (fs : List (String × Int)) (m : List (String × Int)),
      keysNodup m → keysNodup (fs.foldl (fun m f => dictInsert m f.1 f.2) m) by
    exact h files [] (by simp [keysNodup])
  intro fs
  induction fs with
  | nil => intro m hm; simpa using hm
  | cons f fs ih => intro m hm; exact ih _ (dictInsert_keysNodup _ _ _ hm)

/-- In a dictionary with distinct keys, lookup of a stored entry returns its
stored value. -/
theorem slookup_eq_of_mem (m : List (String × Int)) (h : keysNodup m)
    (k : String) (v : Int) (hmem : (k, v) ∈ m) : slookup m k = some v := by
  induction m with
  | nil => cases hmem
  | cons p rest ih =>
      rcases List.mem_cons.mp hmem with heq | hmem2
      · rw [← heq]
        simp [slookup]
      · have hrest : keysNodup rest := by
          have := (List.nodup_cons.mp h).2
          simpa [keysNodup] using this
        by_cases hpk : p.1 = k
        · exfalso
          have hknot : p.1 ∉ rest.map Prod.fst := by
            have := (List.nodup_cons.mp h).1
            simpa [keysNodup] using this
          exact hknot (hpk ▸ List.mem_map.mpr ⟨(k, v), hmem2, rfl⟩)
        · simp [slookup, hpk, ih hrest hmem2]

/-- Claim C9: running `detect_changes` a second time on the same file list —
the persisted previous state now being the state just saved — reports no
added, modified or deleted files, `total_changes = 0`, every path unchanged,
and persists the same state again. -/
theorem detect_changes_idempotent (previous_state : List (String × Int))
    (current_files : List (String × Int)) :
    (let r1 := detect_changes previous_state current_files
     let r2 := detect_changes r1.2 current_files
     r2.1.added = [] ∧ r2.1.modified = [] ∧ r2.1.deleted = []
     ∧ r2.1.total_changes = 0
     ∧ r2.1.unchanged = (buildState current_files).map (fun p => p.1)
     ∧ r2.2 = r1.2) := by
  have hlook : ∀ p ∈ buildState current_files,
      slookup (buildState current_files) p.1 = some p.2 := by
    intro p hp
    exact slookup_eq_of_mem _ (buildState_keysNodup current_files) p.1 p.2 hp
  have hadded : (buildState current_files).filter
      (fun p => (slookup (buildState current_files) p.1).isNone) = [] := by
    rw [List.filter_eq_nil_iff]
    intro p hp
    simp [hlook p hp]
  have hmodified : (buildState current_files).filter (fun p =>
      match slookup (buildState current_files) p.1 with
      | some m => m != p.2
      | none => false) = [] := by
    rw [List.filter_eq_nil_iff]
    intro p hp
    simp [hlook p hp]
  have hunchanged : (buildState current_files).filter (fun p =>
      match slookup (buildState current_files) p.1 with
      | some m => m == p.2
      | none => false) = buildState current_files := by
    rw [List.filter_eq_self]
    intro p hp
    simp [hlook p hp]
  refine ⟨?_, ?_, ?_, ?_, ?_, ?_⟩ <;>
    simp [detect_changes, hadded, hmodified, hunchanged]

end DevOpsWorkflows






